import Mathlib

/-!
Verification of the quibble test-orchestration driver (`quibble/cmd.py`).

The development shallowly embeds `QuibbleCmd`:

* `should_run` embeds `QuibbleCmd.should_run` (stage selection);
* `set_repos_to_clone` embeds `QuibbleCmd.set_repos_to_clone`
  (dependency/project list construction);
* `phpunit_testsuite_of` embeds the testsuite-defaulting block of
  `QuibbleCmd.execute`;
* `pipeline` embeds the control flow of `QuibbleCmd.execute` as a trace
  of events (backend start/stop, stage-executor invocations), with an
  exception-propagating sequencing operator `seqE` modelling Python
  statement sequencing, and `withB` modelling a `with` block on a
  context-managed backend (enter runs start, exit always runs stop,
  the exception is re-raised afterwards).

Steps of `execute` that neither touch a backend lifecycle nor invoke a
stage executor (logging, environment-variable plumbing, path setup)
produce no events.  Each stage executor and each external subprocess
step is opaque and may raise; this is modelled by a per-step failure
flag in `Config`.  A raised exception carries the name of the step that
raised it.
-/

namespace Quibble

/-- The fixed stage-name list, `QuibbleCmd.stages`. -/
def stages : List String := ["phpunit", "npm-test", "composer-test", "qunit", "selenium"]

/-- Run configuration: the fields of `self.args` (and ambient environment
values) that the embedded control flow reads, plus one failure flag per
opaque external step (stage executors and subprocess calls), modelling
whether that step raises when invoked. -/
structure Config where
  /-- `--commands`: literal command overrides. -/
  commands : List String := []
  /-- `--skip`: stages to skip. -/
  skip : List String := []
  /-- `--run`: stages to run, default `['all']`. -/
  run : List String := ["all"]
  /-- `--phpunit-testsuite`: `none` when absent (argparse default `None`). -/
  phpunit_testsuite : Option String := none
  /-- `ZUUL_PROJECT` environment variable, `none` when unset. -/
  zuul_env : Option String := none
  /-- positional `projects` arguments. -/
  projects : List String := []
  /-- whether `--packages-source` is `vendor` (the default). -/
  packages_source_vendor : Bool := true
  /-- `--skip-zuul`. -/
  skip_zuul : Bool := false
  /-- `--skip-deps`. -/
  skip_deps : Bool := false
  /-- `DISPLAY` environment variable, `none` when unset. -/
  display_env : Option String := none
  /-- whether `tests/selenium` exists under the MediaWiki install path. -/
  selenium_dir_exists : Bool := true
  clone_fails : Bool := false
  extskin_fails : Bool := false
  composer_update_fails : Bool := false
  install_fails : Bool := false
  npm_fails : Bool := false
  phpunit1_fails : Bool := false
  core_fails : Bool := false
  qunit_fails : Bool := false
  webdriver_fails : Bool := false
  phpunit2_fails : Bool := false
  commands_fails : Bool := false
deriving Repr, DecidableEq

/-- `QuibbleCmd.should_run`.  Python truthiness of `self.args.commands`
(a list) is non-emptiness. -/
def should_run (c : Config) (stage : String) : Bool :=
  if !c.commands.isEmpty then false
  else if c.skip.contains "all" then false
  else if c.skip.contains stage then false
  else if c.run.contains "all" then true
  else c.run.contains stage

/-- `QuibbleCmd.isCoreOrVendor`. -/
def isCoreOrVendor (project : String) : Bool :=
  project == "mediawiki/core" || project == "mediawiki/vendor"

/-- Python `str.startswith`, computed on the character sequences; it
agrees with `String.startsWith`. -/
def startsWithP (s p : String) : Bool :=
  p.data.isPrefixOf s.data

/-- `QuibbleCmd.isExtOrSkin`: `str.startswith` on a tuple is a
disjunction of the two tests. -/
def isExtOrSkin (project : String) : Bool :=
  startsWithP project "mediawiki/extensions/" || startsWithP project "mediawiki/skins/"

/-- `QuibbleCmd.set_repos_to_clone`.  `deps0` is the content of
`self.dependencies` on entry (`[]` as set by `__init__`); the function
mutates it by `insert(0, ...)`, `append` and `extend`.  The environment
variables `SKIN_DEPENDENCIES` and `EXT_DEPENDENCIES` are `none` when
unset; when set they are split on the two-character separator
backslash-n, exactly as the source's `split` with an escaped backslash
does. -/
def set_repos_to_clone (deps0 : List String) (projects : List String)
    (clone_vendor : Bool) (zuul_project skin_deps ext_deps : Option String) :
    List String :=
  let deps := "mediawiki/core" :: deps0
  let deps := deps ++ ["mediawiki/skins/Vector"]
  let deps := if clone_vendor then deps ++ ["mediawiki/vendor"] else deps
  let deps :=
    match zuul_project with
    | some zp => if zp ∈ deps then deps else deps ++ [zp]
    | none => deps
  let deps :=
    match skin_deps with
    | some s => deps ++ s.splitOn "\\n"
    | none => deps
  let deps :=
    match ext_deps with
    | some s => deps ++ s.splitOn "\\n"
    | none => deps
  deps ++ projects

/-- `ZUUL_PROJECT` defaulting in `execute`: the check is `is None`, not
truthiness, so an empty string set in the environment is kept. -/
def zuulProject (c : Config) : String :=
  c.zuul_env.getD "mediawiki/core"

/-- Python truthiness of an optional string: `None` and the empty string
are falsy. -/
def strTruthy (o : Option String) : Bool :=
  !(o.getD "").isEmpty

/-- The phpunit-testsuite defaulting block of `execute`:
`phpunit_testsuite = None; if self.args.phpunit_testsuite: ...
elif zuul_project.startswith(...) ...`. -/
def phpunit_testsuite_of (arg : Option String) (zuul_project : String) :
    Option String :=
  if strTruthy arg then arg
  else if startsWithP zuul_project "mediawiki/extensions/" then some "extensions"
  else if startsWithP zuul_project "mediawiki/skins/" then some "skins"
  else none

/-- Observable events of one `execute` run: backend lifecycle
transitions and invocations of opaque external steps.  The
`DevWebServer` opened for the browser-stage group and the one opened
for the user-commands block are distinct instances and get distinct
constructors so each instance's lifetime can be tracked. -/
inductive Event where
  /-- `db.start()` in `mw_install` (the database backend). -/
  | dbStart : Event
  /-- the database backend's `stop`; never emitted by `execute` itself. -/
  | dbStop : Event
  /-- `DevWebServer.__enter__` of the browser-stage group. -/
  | serverStart : Event
  /-- `DevWebServer.__exit__` of the browser-stage group. -/
  | serverStop : Event
  /-- `Xvfb.__enter__` via `stack.enter_context`. -/
  | xvfbStart : Event
  /-- `Xvfb.__exit__` at `ExitStack` unwinding. -/
  | xvfbStop : Event
  /-- `ChromeWebDriver.__enter__`. -/
  | driverStart : Event
  /-- `ChromeWebDriver.__exit__`. -/
  | driverStop : Event
  /-- `DevWebServer.__enter__` of the user-commands block. -/
  | cmdServerStart : Event
  /-- `DevWebServer.__exit__` of the user-commands block. -/
  | cmdServerStop : Event
  /-- invocation of an opaque external step (stage executor or
  subprocess group), identified by name. -/
  | stageRun : String → Event
  /-- `quibble.test.run_phpunit_databaseless` with its testsuite argument. -/
  | phpunitDBless : Option String → Event
  /-- `quibble.test.run_phpunit_database` with its testsuite argument. -/
  | phpunitDB : Option String → Event
deriving Repr, DecidableEq

/-- Result of running a block: the events it emitted, and the name of
the step that raised, when one did. -/
abbrev Trace := List Event × Option String

/-- The empty block. -/
def tpure : Trace := ([], none)

/-- Python statement sequencing: if the first block raised, the second
does not run and the exception propagates. -/
def seqE (a b : Trace) : Trace :=
  match a.2 with
  | some e => (a.1, some e)
  | none => (a.1 ++ b.1, b.2)

/-- An opaque external step: its invocation is recorded, and it raises
exactly when its failure flag is set. -/
def runStep (name : String) (fails : Bool) : Trace :=
  ([Event.stageRun name], if fails then some name else none)

/-- `with backend: body` — `__enter__` emits the start event, the body
runs, `__exit__` emits the stop event on every exit path, and an
exception from the body propagates afterwards. -/
def withB (start stop : Event) (body : Trace) : Trace :=
  (start :: body.1 ++ [stop], body.2)

/-- Lines 427-429: clone and submodule update, gated on `--skip-zuul`. -/
def cloneSeg (c : Config) : Trace :=
  if !c.skip_zuul then runStep "clone" c.clone_fails else tpure

/-- Lines 431-444: extension/skin checks, gated on the project kind and
on the `composer-test` / `npm-test` stage selection. -/
def extskinSeg (c : Config) : Trace :=
  if isExtOrSkin (zuulProject c)
      && (should_run c "composer-test" || should_run c "npm-test") then
    runStep "extskin" c.extskin_fails
  else tpure

/-- Lines 446-453: `composer update` for mediawiki/core, gated on
`--skip-deps` and on `--packages-source composer`. -/
def composerUpdateSeg (c : Config) : Trace :=
  if !c.skip_deps && !c.packages_source_vendor then
    runStep "composer-update" c.composer_update_fails
  else tpure

/-- `mw_install` (line 455): the database backend is created, held in
`self.backends` and started; then the MediaWiki installer and updater
run.  No `stop` of the database backend occurs here. -/
def installSeg (c : Config) : Trace :=
  seqE ([Event.dbStart], none) (runStep "install" c.install_fails)

/-- Lines 457-464: composer dev dependencies and npm install, gated on
`--skip-deps`. -/
def npmSeg (c : Config) : Trace :=
  if !c.skip_deps then runStep "npm-install" c.npm_fails else tpure

/-- Lines 474-486: databaseless PHPUnit run, gated on the `phpunit`
stage; receives the defaulted testsuite. -/
def phpunit1Seg (c : Config) : Trace :=
  if should_run c "phpunit" then
    ([Event.phpunitDBless
        (phpunit_testsuite_of c.phpunit_testsuite (zuulProject c))],
     if c.phpunit1_fails then some "phpunit-dbless" else none)
  else tpure

/-- Lines 488-493: `quibble.test.run_core`, invoked whenever the
project under test is mediawiki/core. -/
def coreSeg (c : Config) : Trace :=
  if zuulProject c == "mediawiki/core" then runStep "core" c.core_fails
  else tpure

/-- Lines 516-520: `with ChromeWebDriver(display=display):
run_webdriver(...)`. -/
def driverBlock (c : Config) : Trace :=
  withB Event.driverStart Event.driverStop (runStep "webdriver" c.webdriver_fails)

/-- Lines 505-520: the selenium part of the browser group.  Runs only
when the `selenium` stage is selected and `tests/selenium` exists.  The
`ExitStack` enters an `Xvfb` context exactly when `DISPLAY` is falsy
(unset or empty), and unwinds it on every exit path after the driver
block finishes or raises. -/
def seleniumPart (c : Config) : Trace :=
  if should_run c "selenium" && c.selenium_dir_exists then
    if strTruthy c.display_env then driverBlock c
    else
      (Event.xvfbStart :: (driverBlock c).1 ++ [Event.xvfbStop],
       (driverBlock c).2)
  else tpure

/-- Lines 500-502: the qunit part of the browser group. -/
def qunitPart (c : Config) : Trace :=
  if should_run c "qunit" then runStep "qunit" c.qunit_fails else tpure

/-- Lines 495-520: the browser-stage group.  When `qunit` or `selenium`
is selected, a single `DevWebServer` context wraps both parts. -/
def browserSeg (c : Config) : Trace :=
  if should_run c "qunit" || should_run c "selenium" then
    withB Event.serverStart Event.serverStop (seqE (qunitPart c) (seleniumPart c))
  else tpure

/-- Lines 522-530: database-backed PHPUnit run, gated on the `phpunit`
stage; receives the same defaulted testsuite as the databaseless run. -/
def phpunit2Seg (c : Config) : Trace :=
  if should_run c "phpunit" then
    ([Event.phpunitDB
        (phpunit_testsuite_of c.phpunit_testsuite (zuulProject c))],
     if c.phpunit2_fails then some "phpunit-db" else none)
  else tpure

/-- Lines 532-539: literal user commands, inside their own
`DevWebServer` context, gated on truthiness of `--commands`. -/
def commandsSeg (c : Config) : Trace :=
  if !c.commands.isEmpty then
    withB Event.cmdServerStart Event.cmdServerStop
      (runStep "commands" c.commands_fails)
  else tpure

/-- `QuibbleCmd.execute` (lines 392-539) as one trace: the segments in
their source order, sequenced with exception propagation. -/
def pipeline (c : Config) : Trace :=
  seqE (cloneSeg c) <| seqE (extskinSeg c) <| seqE (composerUpdateSeg c) <|
  seqE (installSeg c) <| seqE (npmSeg c) <| seqE (phpunit1Seg c) <|
  seqE (coreSeg c) <| seqE (browserSeg c) <| seqE (phpunit2Seg c) (commandsSeg c)

/-- Modelled from the spec: the release of the database backend is not
in `cmd.py` — `execute` holds it in `self.backends` (`Hold backend
objects so they do not get garbage collected until end of script`) and
the backend class performing the stop at interpreter teardown is outside
the sources.  Per the spec, the backend `is released only at overall
pipeline teardown (top-level scope exit)`: a whole run is the `execute`
trace followed by a final stop of the database backend when one was
started. -/
def mainRun (c : Config) : Trace :=
  ((pipeline c).1 ++
    (if Event.dbStart ∈ (pipeline c).1 then [Event.dbStop] else []),
   (pipeline c).2)

/-! ### Basic lemmas about the trace combinators -/

theorem seqE_of_none {a b : Trace} (h : a.2 = none) :
    seqE a b = (a.1 ++ b.1, b.2) := by
  simp [seqE, h]

theorem seqE_of_some {a b : Trace} {e : String} (h : a.2 = some e) :
    seqE a b = (a.1, some e) := by
  simp [seqE, h]

theorem mem_seqE {a b : Trace} {x : Event} (h : x ∈ (seqE a b).1) :
    x ∈ a.1 ∨ x ∈ b.1 := by
  unfold seqE at h
  cases ha : a.2 with
  | none => rw [ha] at h; simpa using h
  | some e => rw [ha] at h; exact Or.inl h

theorem peel {a rest : Trace} {x : Event} (hx : x ∈ (seqE a rest).1)
    (hax : x ∉ a.1) :
    a.2 = none ∧ x ∈ rest.1 ∧ (seqE a rest).1 = a.1 ++ rest.1 := by
  unfold seqE at hx ⊢
  cases ha : a.2 with
  | none =>
    rw [ha] at hx
    refine ⟨rfl, ?_, rfl⟩
    simp only [List.mem_append] at hx
    exact hx.resolve_left hax
  | some e => rw [ha] at hx; exact absurd hx hax

theorem peelErr {a rest : Trace} {e : String} (h : (seqE a rest).2 = some e)
    (hne : a.2 ≠ some e) :
    a.2 = none ∧ rest.2 = some e ∧ (seqE a rest).1 = a.1 ++ rest.1 := by
  unfold seqE at h ⊢
  cases ha : a.2 with
  | none => rw [ha] at h; exact ⟨rfl, h, rfl⟩
  | some e' =>
    rw [ha] at h
    simp only at h
    exact absurd (ha.trans h) hne

/-! ### Per-segment event-shape and error-name lemmas -/

theorem mem_cloneSeg {c : Config} {x : Event} (h : x ∈ (cloneSeg c).1) :
    x = Event.stageRun "clone" := by
  unfold cloneSeg runStep tpure at h
  split at h <;> simp_all

theorem cloneSeg_err {c : Config} {e : String} (h : (cloneSeg c).2 = some e) :
    e = "clone" := by
  unfold cloneSeg runStep tpure at h
  split at h
  · split at h <;> simp_all
  · simp_all

theorem mem_extskinSeg {c : Config} {x : Event} (h : x ∈ (extskinSeg c).1) :
    x = Event.stageRun "extskin" := by
  unfold extskinSeg runStep tpure at h
  split at h <;> simp_all

theorem extskinSeg_err {c : Config} {e : String}
    (h : (extskinSeg c).2 = some e) : e = "extskin" := by
  unfold extskinSeg runStep tpure at h
  split at h
  · split at h <;> simp_all
  · simp_all

theorem mem_composerUpdateSeg {c : Config} {x : Event}
    (h : x ∈ (composerUpdateSeg c).1) : x = Event.stageRun "composer-update" := by
  unfold composerUpdateSeg runStep tpure at h
  split at h <;> simp_all

theorem composerUpdateSeg_err {c : Config} {e : String}
    (h : (composerUpdateSeg c).2 = some e) : e = "composer-update" := by
  unfold composerUpdateSeg runStep tpure at h
  split at h
  · split at h <;> simp_all
  · simp_all

theorem installSeg_eq (c : Config) :
    installSeg c = ([Event.dbStart, Event.stageRun "install"],
      if c.install_fails then some "install" else none) := by
  simp [installSeg, seqE, runStep]

theorem mem_installSeg {c : Config} {x : Event} (h : x ∈ (installSeg c).1) :
    x = Event.dbStart ∨ x = Event.stageRun "install" := by
  rw [installSeg_eq] at h
  simpa using h

theorem installSeg_err {c : Config} {e : String}
    (h : (installSeg c).2 = some e) : e = "install" := by
  rw [installSeg_eq] at h
  split at h <;> simp_all

theorem mem_npmSeg {c : Config} {x : Event} (h : x ∈ (npmSeg c).1) :
    x = Event.stageRun "npm-install" := by
  unfold npmSeg runStep tpure at h
  split at h <;> simp_all

theorem npmSeg_err {c : Config} {e : String} (h : (npmSeg c).2 = some e) :
    e = "npm-install" := by
  unfold npmSeg runStep tpure at h
  split at h
  · split at h <;> simp_all
  · simp_all

theorem mem_phpunit1Seg {c : Config} {x : Event} (h : x ∈ (phpunit1Seg c).1) :
    x = Event.phpunitDBless
          (phpunit_testsuite_of c.phpunit_testsuite (zuulProject c)) := by
  unfold phpunit1Seg tpure at h
  split at h <;> simp_all

theorem phpunit1Seg_err {c : Config} {e : String}
    (h : (phpunit1Seg c).2 = some e) : e = "phpunit-dbless" := by
  unfold phpunit1Seg tpure at h
  split at h
  · split at h <;> simp_all
  · simp_all

theorem mem_coreSeg {c : Config} {x : Event} (h : x ∈ (coreSeg c).1) :
    x = Event.stageRun "core" := by
  unfold coreSeg runStep tpure at h
  split at h <;> simp_all

theorem coreSeg_err {c : Config} {e : String} (h : (coreSeg c).2 = some e) :
    e = "core" := by
  unfold coreSeg runStep tpure at h
  split at h
  · split at h <;> simp_all
  · simp_all

theorem mem_phpunit2Seg {c : Config} {x : Event} (h : x ∈ (phpunit2Seg c).1) :
    x = Event.phpunitDB
          (phpunit_testsuite_of c.phpunit_testsuite (zuulProject c)) := by
  unfold phpunit2Seg tpure at h
  split at h <;> simp_all

theorem phpunit2Seg_err {c : Config} {e : String}
    (h : (phpunit2Seg c).2 = some e) : e = "phpunit-db" := by
  unfold phpunit2Seg tpure at h
  split at h
  · split at h <;> simp_all
  · simp_all

theorem mem_commandsSeg {c : Config} {x : Event} (h : x ∈ (commandsSeg c).1) :
    x = Event.cmdServerStart ∨ x = Event.stageRun "commands" ∨
    x = Event.cmdServerStop := by
  unfold commandsSeg withB runStep tpure at h
  split at h <;> simp_all

theorem commandsSeg_err {c : Config} {e : String}
    (h : (commandsSeg c).2 = some e) : e = "commands" := by
  unfold commandsSeg withB runStep tpure at h
  split at h
  · split at h <;> simp_all
  · simp_all

theorem mem_qunitPart {c : Config} {x : Event} (h : x ∈ (qunitPart c).1) :
    x = Event.stageRun "qunit" := by
  unfold qunitPart runStep tpure at h
  split at h <;> simp_all

theorem qunitPart_err {c : Config} {e : String}
    (h : (qunitPart c).2 = some e) : e = "qunit" := by
  unfold qunitPart runStep tpure at h
  split at h
  · split at h <;> simp_all
  · simp_all

theorem driverBlock_eq (c : Config) :
    driverBlock c =
      ([Event.driverStart, Event.stageRun "webdriver", Event.driverStop],
       if c.webdriver_fails then some "webdriver" else none) := by
  simp [driverBlock, withB, runStep]

theorem mem_seleniumPart {c : Config} {x : Event} (h : x ∈ (seleniumPart c).1) :
    x = Event.xvfbStart ∨ x = Event.driverStart ∨
    x = Event.stageRun "webdriver" ∨ x = Event.driverStop ∨
    x = Event.xvfbStop := by
  unfold seleniumPart tpure at h
  rw [driverBlock_eq] at h
  split at h
  · split at h <;> (simp at h; tauto)
  · simp_all

theorem seleniumPart_err {c : Config} {e : String}
    (h : (seleniumPart c).2 = some e) : e = "webdriver" := by
  unfold seleniumPart tpure at h
  rw [driverBlock_eq] at h
  split at h
  · split at h <;> (split at h <;> simp_all)
  · simp_all

theorem mem_browserSeg {c : Config} {x : Event} (h : x ∈ (browserSeg c).1) :
    x = Event.serverStart ∨ x = Event.serverStop ∨
    x = Event.stageRun "qunit" ∨ x = Event.xvfbStart ∨
    x = Event.driverStart ∨ x = Event.stageRun "webdriver" ∨
    x = Event.driverStop ∨ x = Event.xvfbStop := by
  unfold browserSeg withB tpure at h
  split at h
  case isTrue =>
    rcases List.mem_cons.mp h with h | h
    · exact Or.inl h
    rcases List.mem_append.mp h with h | h
    · rcases mem_seqE h with h' | h'
      · exact Or.inr (Or.inr (Or.inl (mem_qunitPart h')))
      · rcases mem_seleniumPart h' with h | h | h | h | h <;> simp [h]
    · rcases List.mem_singleton.mp h with h
      simp [h]
  case isFalse => simp_all

theorem browserSeg_err {c : Config} {e : String}
    (h : (browserSeg c).2 = some e) : e = "qunit" ∨ e = "webdriver" := by
  unfold browserSeg withB tpure at h
  split at h
  case isTrue =>
    simp only at h
    unfold seqE at h
    cases hq : (qunitPart c).2 with
    | none => rw [hq] at h; exact Or.inr (seleniumPart_err h)
    | some e' =>
      rw [hq] at h
      simp only [Option.some.injEq] at h
      exact Or.inl (h ▸ qunitPart_err hq)
  case isFalse => simp_all

/-- Every event of the pipeline trace belongs to one of the segments. -/
theorem mem_pipeline {c : Config} {x : Event} (h : x ∈ (pipeline c).1) :
    x ∈ (cloneSeg c).1 ∨ x ∈ (extskinSeg c).1 ∨ x ∈ (composerUpdateSeg c).1 ∨
    x ∈ (installSeg c).1 ∨ x ∈ (npmSeg c).1 ∨ x ∈ (phpunit1Seg c).1 ∨
    x ∈ (coreSeg c).1 ∨ x ∈ (browserSeg c).1 ∨ x ∈ (phpunit2Seg c).1 ∨
    x ∈ (commandsSeg c).1 := by
  unfold pipeline at h
  rcases mem_seqE h with h | h
  · exact Or.inl h
  rcases mem_seqE h with h | h
  · exact Or.inr (Or.inl h)
  rcases mem_seqE h with h | h
  · exact Or.inr (Or.inr (Or.inl h))
  rcases mem_seqE h with h | h
  · exact Or.inr (Or.inr (Or.inr (Or.inl h)))
  rcases mem_seqE h with h | h
  · exact Or.inr (Or.inr (Or.inr (Or.inr (Or.inl h))))
  rcases mem_seqE h with h | h
  · exact Or.inr (Or.inr (Or.inr (Or.inr (Or.inr (Or.inl h)))))
  rcases mem_seqE h with h | h
  · exact Or.inr (Or.inr (Or.inr (Or.inr (Or.inr (Or.inr (Or.inl h))))))
  rcases mem_seqE h with h | h
  · exact Or.inr (Or.inr (Or.inr (Or.inr (Or.inr (Or.inr (Or.inr (Or.inl h)))))))
  rcases mem_seqE h with h | h
  · exact Or.inr (Or.inr (Or.inr (Or.inr (Or.inr (Or.inr (Or.inr (Or.inr (Or.inl h))))))))
  · exact Or.inr (Or.inr (Or.inr (Or.inr (Or.inr (Or.inr (Or.inr (Or.inr (Or.inr h))))))))

/-- Structural normal form of `set_repos_to_clone`: the list is the base
defaults followed by the conditional ZUUL append, the environment lists
and the explicit projects. -/
theorem set_repos_eq (deps0 projects : List String) (clone_vendor : Bool)
    (zuul_project skin_deps ext_deps : Option String) :
    set_repos_to_clone deps0 projects clone_vendor zuul_project skin_deps ext_deps =
      ("mediawiki/core" :: deps0) ++ ["mediawiki/skins/Vector"] ++
      (if clone_vendor then ["mediawiki/vendor"] else []) ++
      (match zuul_project with
       | some zp =>
         if zp ∈ ("mediawiki/core" :: deps0) ++ ["mediawiki/skins/Vector"] ++
             (if clone_vendor then ["mediawiki/vendor"] else []) then []
         else [zp]
       | none => []) ++
      (match skin_deps with | some s => s.splitOn "\\n" | none => []) ++
      (match ext_deps with | some s => s.splitOn "\\n" | none => []) ++
      projects := by
  unfold set_repos_to_clone
  cases clone_vendor <;>
    cases zuul_project <;>
    cases skin_deps <;>
    cases ext_deps <;>
    simp <;>
    split <;>
    simp

/-- C1: `should_run` is decided by the precedence chain: a non-empty
command-override list forces `false`; else the all-sentinel in the skip
set forces `false`; else a skipped stage is `false`; else the
all-sentinel in the requested set forces `true`; else the stage runs iff
it is explicitly requested. -/
theorem should_run_rules (c : Config) (stage : String) :
    (c.commands ≠ [] → should_run c stage = false) ∧
    (c.commands = [] → "all" ∈ c.skip → should_run c stage = false) ∧
    (c.commands = [] → "all" ∉ c.skip → stage ∈ c.skip →
      should_run c stage = false) ∧
    (c.commands = [] → "all" ∉ c.skip → stage ∉ c.skip → "all" ∈ c.run →
      should_run c stage = true) ∧
    (c.commands = [] → "all" ∉ c.skip → stage ∉ c.skip → "all" ∉ c.run →
      (should_run c stage = true ↔ stage ∈ c.run)) := by
  unfold should_run
  refine ⟨fun h => ?_, fun h1 h2 => ?_, fun h1 h2 h3 => ?_,
    fun h1 h2 h3 h4 => ?_, fun h1 h2 h3 h4 => ?_⟩ <;>
    simp_all [List.isEmpty_iff, List.contains, List.elem_eq_mem]

/-- C1 witness: the spec's worked example, requested = `{all}`,
skip = `{a}`. -/
theorem should_run_rules_example :
    should_run { run := ["all"], skip := ["a"] } "a" = false ∧
    should_run { run := ["all"], skip := ["a"] } "b" = true := by
  constructor
  · exact (should_run_rules { run := ["all"], skip := ["a"] } "a").2.2.1
      rfl (by decide) (by decide)
  · exact (should_run_rules { run := ["all"], skip := ["a"] } "b").2.2.2.1
      rfl (by decide) (by decide) (by decide)

/-- C8 counterexample: a configuration with no command overrides and no
skips, but a requested set without the all-sentinel, does not run every
stage: with requested = `{phpunit}`, the stage `qunit` (a member of the
fixed stage set) is not run. -/
theorem empty_skip_not_sufficient_cex :
    "qunit" ∈ stages ∧
    ({ run := ["phpunit"] } : Config).commands = [] ∧
    ({ run := ["phpunit"] } : Config).skip = [] ∧
    should_run { run := ["phpunit"] } "qunit" = false := by decide

/-- C8 amended: for every configuration whose command-override list is
empty, whose skip set is empty, and whose requested set contains the
all-sentinel (the default), `should_run` returns true for every stage in
the fixed stage-name set. -/
theorem all_stages_run_by_default (c : Config) (h1 : c.commands = [])
    (h2 : c.skip = []) (h3 : "all" ∈ c.run) :
    ∀ stage ∈ stages, should_run c stage = true := by
  intro stage _
  unfold should_run
  simp [h1, h2, List.contains, List.elem_eq_mem, h3]

/-- C8 amended witness: the default configuration runs the stage
`phpunit`. -/
theorem all_stages_run_by_default_witness :
    should_run {} "phpunit" = true :=
  all_stages_run_by_default {} rfl rfl (by decide) "phpunit" (by decide)

/-- C5 counterexample: the resolved project list is not duplicate-free.
When the project under test (already appended from `ZUUL_PROJECT`) is
also explicitly requested, it appears twice: the explicit `extend` does
not deduplicate. -/
theorem project_list_duplicate_cex :
    (set_repos_to_clone [] ["mediawiki/extensions/Foo"] true
        (some "mediawiki/extensions/Foo") none none).count
      "mediawiki/extensions/Foo" = 2 := by decide

/-- C5 amended: only the `ZUUL_PROJECT` entry is deduplicated against
the entries already present — with no environment or explicit
duplicates it occurs exactly once, whatever it is; and the spec's
example (explicit Foo, vendor bundle requested, nothing else) yields the
duplicate-free list with the vendor bundle exactly once.  Environment
and explicit entries are appended without deduplication. -/
theorem set_repos_some_zuul (projects : List String) (clone_vendor : Bool)
    (zp : String) :
    set_repos_to_clone [] projects clone_vendor (some zp) none none =
      (["mediawiki/core", "mediawiki/skins/Vector"] ++
        (if clone_vendor then ["mediawiki/vendor"] else [])) ++
      (if zp ∈ ["mediawiki/core", "mediawiki/skins/Vector"] ++
          (if clone_vendor then ["mediawiki/vendor"] else []) then [] else [zp]) ++
      projects := by
  cases clone_vendor <;> unfold set_repos_to_clone <;> simp <;> split <;> simp

theorem zuul_project_deduplicated (clone_vendor : Bool) (zp : String) :
    (set_repos_to_clone [] [] clone_vendor (some zp) none none).count zp = 1 ∧
    set_repos_to_clone [] ["mediawiki/extensions/Foo"] true none none none =
      ["mediawiki/core", "mediawiki/skins/Vector", "mediawiki/vendor",
       "mediawiki/extensions/Foo"] := by
  refine ⟨?_, by decide⟩
  rw [set_repos_some_zuul]
  cases clone_vendor
  · simp only [Bool.false_eq_true, if_false, List.append_nil]
    by_cases h : zp ∈ ["mediawiki/core", "mediawiki/skins/Vector"]
    · rw [if_pos h, List.append_nil]
      exact List.count_eq_one_of_mem (by decide) h
    · rw [if_neg h]
      simp only [List.mem_cons, List.not_mem_nil, or_false, not_or] at h
      obtain ⟨h1, h2⟩ := h
      simp [List.count_cons, beq_iff_eq, h1, h2]
  · simp only [if_true, List.append_nil]
    by_cases h : zp ∈ ["mediawiki/core", "mediawiki/skins/Vector"] ++
        ["mediawiki/vendor"]
    · rw [if_pos h, List.append_nil]
      exact List.count_eq_one_of_mem (by decide) h
    · rw [if_neg h]
      simp only [List.mem_append, List.mem_cons, List.not_mem_nil, or_false,
        not_or] at h
      obtain ⟨⟨h1, h2⟩, h3⟩ := h
      simp [List.count_cons, beq_iff_eq, h1, h2, h3]

/-- C7: the dependency/project list is built in order: primary project
first, default skin appended, vendor bundle appended if requested, the
project under test appended if not already present, environment skin
and extension lists appended, explicit projects appended last; the head
of the result is always the primary project. -/
theorem project_list_build_order (projects : List String) (clone_vendor : Bool)
    (zuul_project skin_deps ext_deps : Option String) :
    (set_repos_to_clone [] projects clone_vendor zuul_project skin_deps ext_deps =
      ["mediawiki/core", "mediawiki/skins/Vector"] ++
      (if clone_vendor then ["mediawiki/vendor"] else []) ++
      (match zuul_project with
       | some zp =>
         if zp ∈ ["mediawiki/core", "mediawiki/skins/Vector"] ++
             (if clone_vendor then ["mediawiki/vendor"] else []) then []
         else [zp]
       | none => []) ++
      (match skin_deps with | some s => s.splitOn "\\n" | none => []) ++
      (match ext_deps with | some s => s.splitOn "\\n" | none => []) ++
      projects) ∧
    (set_repos_to_clone [] projects clone_vendor zuul_project skin_deps
      ext_deps).head? = some "mediawiki/core" := by
  have h := set_repos_eq [] projects clone_vendor zuul_project skin_deps ext_deps
  constructor
  · rw [h]
    cases clone_vendor <;> cases zuul_project <;> cases skin_deps <;>
      cases ext_deps <;> simp
  · rw [h]
    cases clone_vendor <;> cases zuul_project <;> cases skin_deps <;>
      cases ext_deps <;> simp

/-- C10 counterexample: an explicit but empty `--phpunit-testsuite`
filter does not take precedence — Python truthiness treats it as absent
and the project-kind defaulting applies instead. -/
theorem phpunit_testsuite_empty_filter_cex :
    phpunit_testsuite_of (some "") "mediawiki/extensions/Foo" =
      some "extensions" ∧
    (some "extensions" : Option String) ≠ some "" := by decide

/-- C10 amended: when the command-line filter is falsy (absent or the
empty string), the testsuite is `extensions` for extension projects,
`skins` for skin projects and `none` otherwise; a non-empty explicit
filter takes precedence; and every PHPUnit invocation recorded in the
pipeline trace (both the databaseless and the database run) carries
exactly this defaulted testsuite. -/
theorem phpunit_testsuite_selection (c : Config) (ts : Option String) :
    (strTruthy c.phpunit_testsuite = false →
      phpunit_testsuite_of c.phpunit_testsuite (zuulProject c) =
        (if startsWithP (zuulProject c) "mediawiki/extensions/" then
          some "extensions"
         else if startsWithP (zuulProject c) "mediawiki/skins/" then some "skins"
         else none)) ∧
    (∀ s, c.phpunit_testsuite = some s → s ≠ "" →
      phpunit_testsuite_of c.phpunit_testsuite (zuulProject c) = some s) ∧
    (Event.phpunitDBless ts ∈ (pipeline c).1 →
      ts = phpunit_testsuite_of c.phpunit_testsuite (zuulProject c)) ∧
    (Event.phpunitDB ts ∈ (pipeline c).1 →
      ts = phpunit_testsuite_of c.phpunit_testsuite (zuulProject c)) := by
  refine ⟨fun h => ?_, fun s hs hne => ?_, fun h => ?_, fun h => ?_⟩
  · unfold phpunit_testsuite_of
    rw [h]
    rfl
  · unfold phpunit_testsuite_of
    rw [hs]
    have h : strTruthy (some s) = true := by
      simp only [strTruthy, Option.getD_some, Bool.not_eq_true']
      exact Bool.eq_false_iff.mpr (fun hemp => hne ((String.isEmpty_iff s).mp hemp))
    rw [if_pos h]
  · rcases mem_pipeline h with h|h|h|h|h|h|h|h|h|h
    · simpa using mem_cloneSeg h
    · simpa using mem_extskinSeg h
    · simpa using mem_composerUpdateSeg h
    · rcases mem_installSeg h with h | h <;> simp at h
    · simpa using mem_npmSeg h
    · exact Event.phpunitDBless.inj (mem_phpunit1Seg h)
    · simpa using mem_coreSeg h
    · rcases mem_browserSeg h with h|h|h|h|h|h|h|h <;> simp at h
    · simpa using mem_phpunit2Seg h
    · rcases mem_commandsSeg h with h|h|h <;> simp at h
  · rcases mem_pipeline h with h|h|h|h|h|h|h|h|h|h
    · simpa using mem_cloneSeg h
    · simpa using mem_extskinSeg h
    · simpa using mem_composerUpdateSeg h
    · rcases mem_installSeg h with h | h <;> simp at h
    · simpa using mem_npmSeg h
    · simpa using mem_phpunit1Seg h
    · simpa using mem_coreSeg h
    · rcases mem_browserSeg h with h|h|h|h|h|h|h|h <;> simp at h
    · exact Event.phpunitDB.inj (mem_phpunit2Seg h)
    · rcases mem_commandsSeg h with h|h|h <;> simp at h

/-- C10 amended witness: an explicit non-empty filter is used as-is. -/
theorem phpunit_testsuite_selection_witness :
    phpunit_testsuite_of (some "custom") "mediawiki/core" = some "custom" :=
  (phpunit_testsuite_selection { phpunit_testsuite := some "custom" } none).2.1
    "custom" rfl (by decide)

/-- C6: the browser-group web server is started iff the `qunit` or the
`selenium` stage is selected, and when it is started, a single server
instance wraps the whole group: the group trace is exactly one
`serverStart`, the group body, and one final `serverStop`, with no other
server event inside the body.  When neither stage is selected the group
produces nothing at all. -/
theorem server_scope_iff_selected (c : Config) :
    (Event.serverStart ∈ (browserSeg c).1 ↔
      (should_run c "qunit" || should_run c "selenium") = true) ∧
    ((should_run c "qunit" || should_run c "selenium") = true →
      ∃ body, (browserSeg c).1 =
          Event.serverStart :: body ++ [Event.serverStop] ∧
        Event.serverStart ∉ body ∧ Event.serverStop ∉ body) ∧
    ((should_run c "qunit" || should_run c "selenium") = false →
      browserSeg c = tpure) := by
  have hbody : ∀ x ∈ (seqE (qunitPart c) (seleniumPart c)).1,
      x ≠ Event.serverStart ∧ x ≠ Event.serverStop := by
    intro x hx
    rcases mem_seqE hx with h | h
    · rw [mem_qunitPart h]
      exact ⟨by simp, by simp⟩
    · rcases mem_seleniumPart h with h | h | h | h | h <;> rw [h] <;>
        exact ⟨by simp, by simp⟩
  by_cases hsel : (should_run c "qunit" || should_run c "selenium") = true
  · have hb : browserSeg c =
        (Event.serverStart :: (seqE (qunitPart c) (seleniumPart c)).1 ++
          [Event.serverStop], (seqE (qunitPart c) (seleniumPart c)).2) := by
      unfold browserSeg withB
      rw [if_pos hsel]
    refine ⟨⟨fun _ => hsel, fun _ => ?_⟩, fun _ => ?_, fun hf => by simp_all⟩
    · rw [hb]
      simp
    · refine ⟨(seqE (qunitPart c) (seleniumPart c)).1, by rw [hb], ?_, ?_⟩
      · intro hm
        exact (hbody _ hm).1 rfl
      · intro hm
        exact (hbody _ hm).2 rfl
  · have hb : browserSeg c = tpure := by
      unfold browserSeg
      rw [if_neg hsel]
    refine ⟨⟨fun hmem => ?_, fun ht => absurd ht hsel⟩,
      fun ht => absurd ht hsel, fun _ => hb⟩
    rw [hb] at hmem
    simp [tpure] at hmem

/-- C6 witness: in the default configuration the browser group is a
single server scope. -/
theorem server_scope_iff_selected_witness :
    ∃ body, (browserSeg {}).1 =
        Event.serverStart :: body ++ [Event.serverStop] ∧
      Event.serverStart ∉ body ∧ Event.serverStop ∉ body :=
  (server_scope_iff_selected {}).2.1 (by decide)

/-- C9: when `tests/selenium` does not exist, the selenium stage is
silently skipped — the webdriver executor is never invoked and no
browser driver is started — while the group's web server is still
acquired whenever the `selenium` stage is selected, and the absence of
the directory never raises (the group can only fail through qunit). -/
theorem selenium_dir_gate (c : Config) (h : c.selenium_dir_exists = false) :
    Event.stageRun "webdriver" ∉ (browserSeg c).1 ∧
    Event.driverStart ∉ (browserSeg c).1 ∧
    (should_run c "selenium" = true → Event.serverStart ∈ (browserSeg c).1) ∧
    ((browserSeg c).2 = none ∨ (browserSeg c).2 = some "qunit") := by
  have hsp : seleniumPart c = tpure := by
    unfold seleniumPart
    rw [h]
    simp
  have hq : ∀ x ∈ (seqE (qunitPart c) (seleniumPart c)).1,
      x = Event.stageRun "qunit" := by
    intro x hx
    rcases mem_seqE hx with hx | hx
    · exact mem_qunitPart hx
    · rw [hsp] at hx
      simp [tpure] at hx
  have hmem : ∀ x ∈ (browserSeg c).1,
      x = Event.serverStart ∨ x = Event.stageRun "qunit" ∨
      x = Event.serverStop := by
    intro x hx
    unfold browserSeg withB tpure at hx
    split at hx
    · rcases List.mem_cons.mp hx with hh | hh
      · exact Or.inl hh
      rcases List.mem_append.mp hh with hh | hh
      · exact Or.inr (Or.inl (hq _ hh))
      · exact Or.inr (Or.inr (List.mem_singleton.mp hh))
    · simp at hx
  refine ⟨fun hm => ?_, fun hm => ?_, fun hs => ?_, ?_⟩
  · rcases hmem _ hm with hh | hh | hh <;> simp at hh
  · rcases hmem _ hm with hh | hh | hh <;> simp at hh
  · have hsel : (should_run c "qunit" || should_run c "selenium") = true := by
      simp [hs]
    unfold browserSeg withB
    rw [if_pos hsel]
    simp
  · unfold browserSeg withB tpure
    split
    · simp only
      unfold seqE
      cases hqq : (qunitPart c).2 with
      | none => simp [hsp, tpure]
      | some e => simp [qunitPart_err hqq]
    · exact Or.inl rfl

/-- C9 witness: concrete configuration with the selenium directory
absent. -/
theorem selenium_dir_gate_witness :
    Event.stageRun "webdriver" ∉ (browserSeg { selenium_dir_exists := false }).1 :=
  (selenium_dir_gate { selenium_dir_exists := false } rfl).1

/-- If the browser group raised, its trace still ends with the single
`serverStop` emitted by the `DevWebServer` context exit. -/
theorem browserSeg_stop_last {c : Config} {e : String}
    (h : (browserSeg c).2 = some e) :
    ∃ q, (browserSeg c).1 = q ++ [Event.serverStop] ∧
      Event.serverStop ∉ q := by
  unfold browserSeg withB tpure at h ⊢
  split at h
  case isTrue hsel =>
    rw [if_pos hsel]
    refine ⟨Event.serverStart :: (seqE (qunitPart c) (seleniumPart c)).1,
      by simp, ?_⟩
    intro hm
    rcases List.mem_cons.mp hm with hh | hh
    · simp at hh
    rcases mem_seqE hh with hh | hh
    · simpa using mem_qunitPart hh
    · rcases mem_seleniumPart hh with hh | hh | hh | hh | hh <;> simp at hh
  case isFalse => simp at h

/-- Pushing a `serverStop`-free prefix through a final-stop split. -/
theorem stop_split_prepend {A B : List Event}
    (hA : Event.serverStop ∉ A)
    (hB : ∃ q, B = q ++ [Event.serverStop] ∧ Event.serverStop ∉ q) :
    ∃ q, A ++ B = q ++ [Event.serverStop] ∧ Event.serverStop ∉ q := by
  obtain ⟨q, rfl, hnq⟩ := hB
  refine ⟨A ++ q, by rw [List.append_assoc], ?_⟩
  intro hm
  rcases List.mem_append.mp hm with hm | hm
  · exact hA hm
  · exact hnq hm

/-- C2: if a stage executor invoked inside the browser-stage group
raises (the exception surfacing from the pipeline is `qunit` or
`webdriver`), the group's web-server stop is still invoked exactly once,
as the final event of the run, before the exception propagates to the
caller. -/
theorem browser_failure_stops_server (c : Config) (e : String)
    (h : (pipeline c).2 = some e) (he : e = "qunit" ∨ e = "webdriver") :
    ∃ q, (pipeline c).1 = q ++ [Event.serverStop] ∧
      Event.serverStop ∉ q := by
  have hne1 : (cloneSeg c).2 ≠ some e := fun hx => by
    rcases he with rfl | rfl <;> simpa using cloneSeg_err hx
  have hne2 : (extskinSeg c).2 ≠ some e := fun hx => by
    rcases he with rfl | rfl <;> simpa using extskinSeg_err hx
  have hne3 : (composerUpdateSeg c).2 ≠ some e := fun hx => by
    rcases he with rfl | rfl <;> simpa using composerUpdateSeg_err hx
  have hne4 : (installSeg c).2 ≠ some e := fun hx => by
    rcases he with rfl | rfl <;> simpa using installSeg_err hx
  have hne5 : (npmSeg c).2 ≠ some e := fun hx => by
    rcases he with rfl | rfl <;> simpa using npmSeg_err hx
  have hne6 : (phpunit1Seg c).2 ≠ some e := fun hx => by
    rcases he with rfl | rfl <;> simpa using phpunit1Seg_err hx
  have hne7 : (coreSeg c).2 ≠ some e := fun hx => by
    rcases he with rfl | rfl <;> simpa using coreSeg_err hx
  unfold pipeline at h ⊢
  obtain ⟨-, h, hT⟩ := peelErr h hne1
  rw [hT]
  refine stop_split_prepend (fun hm => by simpa using mem_cloneSeg hm) ?_
  obtain ⟨-, h, hT⟩ := peelErr h hne2
  rw [hT]
  refine stop_split_prepend (fun hm => by simpa using mem_extskinSeg hm) ?_
  obtain ⟨-, h, hT⟩ := peelErr h hne3
  rw [hT]
  refine stop_split_prepend
    (fun hm => by simpa using mem_composerUpdateSeg hm) ?_
  obtain ⟨-, h, hT⟩ := peelErr h hne4
  rw [hT]
  refine stop_split_prepend
    (fun hm => by rcases mem_installSeg hm with h' | h' <;> simp at h') ?_
  obtain ⟨-, h, hT⟩ := peelErr h hne5
  rw [hT]
  refine stop_split_prepend (fun hm => by simpa using mem_npmSeg hm) ?_
  obtain ⟨-, h, hT⟩ := peelErr h hne6
  rw [hT]
  refine stop_split_prepend (fun hm => by simpa using mem_phpunit1Seg hm) ?_
  obtain ⟨-, h, hT⟩ := peelErr h hne7
  rw [hT]
  refine stop_split_prepend (fun hm => by simpa using mem_coreSeg hm) ?_
  cases hb : (browserSeg c).2 with
  | some e' =>
    rw [seqE_of_some hb]
    exact browserSeg_stop_last hb
  | none =>
    exfalso
    rw [seqE_of_none hb] at h
    simp only at h
    unfold seqE at h
    cases hp : (phpunit2Seg c).2 with
    | some e2 =>
      rw [hp] at h
      simp only [Option.some.injEq] at h
      have := phpunit2Seg_err hp
      rcases he with rfl | rfl <;> simp_all
    | none =>
      rw [hp] at h
      have := commandsSeg_err h
      rcases he with rfl | rfl <;> simp_all

/-- Concrete configuration for the pipeline witnesses: defaults, with
checkout and dependency installation skipped. -/
def cfgW : Config := { skip_zuul := true, skip_deps := true }

/-- C2 witness: a run whose qunit executor raises. -/
theorem browser_failure_stops_server_witness :
    ∃ q, (pipeline { cfgW with qunit_fails := true }).1 =
        q ++ [Event.serverStop] ∧ Event.serverStop ∉ q :=
  browser_failure_stops_server { cfgW with qunit_fails := true } "qunit"
    (by decide) (Or.inl rfl)

/-- A list of events that contains no display or driver lifecycle
event. -/
def noNest (l : List Event) : Prop :=
  ∀ x ∈ l,
    x ≠ Event.xvfbStart ∧ x ≠ Event.driverStart ∧ x ≠ Event.driverStop ∧
    x ≠ Event.xvfbStop

theorem noNest_append {A B : List Event} (hA : noNest A) (hB : noNest B) :
    noNest (A ++ B) := by
  intro x hx
  rcases List.mem_append.mp hx with hx | hx
  · exact hA x hx
  · exact hB x hx

/-- If the Xvfb backend was entered, the selenium part of the group is
exactly the strictly nested display/driver window. -/
theorem seleniumPart_of_xvfb {c : Config}
    (h : Event.xvfbStart ∈ (seleniumPart c).1) :
    seleniumPart c =
      ([Event.xvfbStart, Event.driverStart, Event.stageRun "webdriver",
        Event.driverStop, Event.xvfbStop],
       if c.webdriver_fails then some "webdriver" else none) := by
  unfold seleniumPart tpure at h ⊢
  rw [driverBlock_eq] at h ⊢
  split at h
  case isTrue hcond =>
    rw [if_pos hcond]
    split at h
    case isTrue hdisp =>
      exfalso
      simp at h
    case isFalse hdisp =>
      rw [if_neg hdisp]
      simp
  case isFalse => simp at h

/-- If the Xvfb backend was entered, the browser-group trace splits
around the display/driver window, with only the server start and the
qunit invocation before it and the server stop after it. -/
theorem browserSeg_xvfb_shape {c : Config}
    (h : Event.xvfbStart ∈ (browserSeg c).1) :
    ∃ p r, (browserSeg c).1 =
      p ++ [Event.xvfbStart, Event.driverStart, Event.stageRun "webdriver",
            Event.driverStop, Event.xvfbStop] ++ r ∧
      noNest p ∧ noNest r := by
  unfold browserSeg withB tpure at h ⊢
  split at h
  case isTrue hsel =>
    rw [if_pos hsel]
    rcases List.mem_cons.mp h with hh | hh
    · exact absurd hh (by simp)
    rcases List.mem_append.mp hh with hh | hh
    · obtain ⟨hq2, hmem, heq⟩ := peel hh
        (fun hm => by simpa using mem_qunitPart hm)
      have h5 := seleniumPart_of_xvfb hmem
      refine ⟨Event.serverStart :: (qunitPart c).1, [Event.serverStop], ?_, ?_, ?_⟩
      · rw [heq, h5]
        simp
      · intro x hx
        rcases List.mem_cons.mp hx with rfl | hx
        · exact ⟨by simp, by simp, by simp, by simp⟩
        · rw [mem_qunitPart hx]
          exact ⟨by simp, by simp, by simp, by simp⟩
      · intro x hx
        rcases List.mem_singleton.mp hx with rfl
        exact ⟨by simp, by simp, by simp, by simp⟩
    · exact absurd (List.mem_singleton.mp hh) (by simp)
  case isFalse => simp at h

/-- Pushing a nest-event-free prefix through a nesting split. -/
theorem nest_split_prepend {A B : List Event} (hA : noNest A)
    (hB : ∃ p r, B =
        p ++ [Event.xvfbStart, Event.driverStart, Event.stageRun "webdriver",
              Event.driverStop, Event.xvfbStop] ++ r ∧ noNest p ∧ noNest r) :
    ∃ p r, A ++ B =
      p ++ [Event.xvfbStart, Event.driverStart, Event.stageRun "webdriver",
            Event.driverStop, Event.xvfbStop] ++ r ∧ noNest p ∧ noNest r := by
  obtain ⟨p, r, rfl, hp, hr⟩ := hB
  exact ⟨A ++ p, r, by simp [List.append_assoc], noNest_append hA hp, hr⟩

set_option linter.unusedVariables false in
/-- C3: in every run that acquires both the virtual display and the
browser driver, the trace contains the strictly nested window
`xvfbStart, driverStart, webdriver, driverStop, xvfbStop` — the display
is started before the driver, the driver is stopped before the display
— and no display or driver event occurs anywhere else in the run. -/
theorem display_driver_nesting (c : Config)
    (h1 : Event.xvfbStart ∈ (pipeline c).1)
    (h2 : Event.driverStart ∈ (pipeline c).1) :
    ∃ p r, (pipeline c).1 =
      p ++ [Event.xvfbStart, Event.driverStart, Event.stageRun "webdriver",
            Event.driverStop, Event.xvfbStop] ++ r ∧
      Event.xvfbStart ∉ p ++ r ∧ Event.driverStart ∉ p ++ r ∧
      Event.driverStop ∉ p ++ r ∧ Event.xvfbStop ∉ p ++ r := by
  have main : ∃ p r, (pipeline c).1 =
      p ++ [Event.xvfbStart, Event.driverStart, Event.stageRun "webdriver",
            Event.driverStop, Event.xvfbStop] ++ r ∧ noNest p ∧ noNest r := by
    clear h2
    unfold pipeline at h1 ⊢
    obtain ⟨-, h1, hT⟩ := peel h1 (fun hm => by simpa using mem_cloneSeg hm)
    rw [hT]
    refine nest_split_prepend (fun x hx => by
      rw [mem_cloneSeg hx]
      exact ⟨by simp, by simp, by simp, by simp⟩) ?_
    obtain ⟨-, h1, hT⟩ := peel h1 (fun hm => by simpa using mem_extskinSeg hm)
    rw [hT]
    refine nest_split_prepend (fun x hx => by
      rw [mem_extskinSeg hx]
      exact ⟨by simp, by simp, by simp, by simp⟩) ?_
    obtain ⟨-, h1, hT⟩ := peel h1
      (fun hm => by simpa using mem_composerUpdateSeg hm)
    rw [hT]
    refine nest_split_prepend (fun x hx => by
      rw [mem_composerUpdateSeg hx]
      exact ⟨by simp, by simp, by simp, by simp⟩) ?_
    obtain ⟨-, h1, hT⟩ := peel h1
      (fun hm => by rcases mem_installSeg hm with h' | h' <;> simp at h')
    rw [hT]
    refine nest_split_prepend (fun x hx => by
      rcases mem_installSeg hx with rfl | rfl <;>
        exact ⟨by simp, by simp, by simp, by simp⟩) ?_
    obtain ⟨-, h1, hT⟩ := peel h1 (fun hm => by simpa using mem_npmSeg hm)
    rw [hT]
    refine nest_split_prepend (fun x hx => by
      rw [mem_npmSeg hx]
      exact ⟨by simp, by simp, by simp, by simp⟩) ?_
    obtain ⟨-, h1, hT⟩ := peel h1 (fun hm => by simpa using mem_phpunit1Seg hm)
    rw [hT]
    refine nest_split_prepend (fun x hx => by
      rw [mem_phpunit1Seg hx]
      exact ⟨by simp, by simp, by simp, by simp⟩) ?_
    obtain ⟨-, h1, hT⟩ := peel h1 (fun hm => by simpa using mem_coreSeg hm)
    rw [hT]
    refine nest_split_prepend (fun x hx => by
      rw [mem_coreSeg hx]
      exact ⟨by simp, by simp, by simp, by simp⟩) ?_
    have htail : noNest (seqE (phpunit2Seg c) (commandsSeg c)).1 := by
      intro x hx
      rcases mem_seqE hx with hx | hx
      · rw [mem_phpunit2Seg hx]
        exact ⟨by simp, by simp, by simp, by simp⟩
      · rcases mem_commandsSeg hx with rfl | rfl | rfl <;>
          exact ⟨by simp, by simp, by simp, by simp⟩
    cases hb : (browserSeg c).2 with
    | some e' =>
      rw [seqE_of_some hb] at h1 ⊢
      exact browserSeg_xvfb_shape h1
    | none =>
      rw [seqE_of_none hb] at h1 ⊢
      simp only at h1 ⊢
      rcases List.mem_append.mp h1 with h1 | h1
      · obtain ⟨p, r, hB, hp, hr⟩ := browserSeg_xvfb_shape h1
        exact ⟨p, r ++ (seqE (phpunit2Seg c) (commandsSeg c)).1,
          by rw [hB]; simp [List.append_assoc], hp, noNest_append hr htail⟩
      · exact absurd h1 (fun hm => (htail _ hm).1 rfl)
  obtain ⟨p, r, hE, hp, hr⟩ := main
  refine ⟨p, r, hE, ?_, ?_, ?_, ?_⟩ <;> intro hm <;>
    rcases List.mem_append.mp hm with hm | hm
  · exact (hp _ hm).1 rfl
  · exact (hr _ hm).1 rfl
  · exact (hp _ hm).2.1 rfl
  · exact (hr _ hm).2.1 rfl
  · exact (hp _ hm).2.2.1 rfl
  · exact (hr _ hm).2.2.1 rfl
  · exact (hp _ hm).2.2.2 rfl
  · exact (hr _ hm).2.2.2 rfl

/-- C3 witness: the default run (no `DISPLAY`, selenium selected and
available) acquires both backends and exhibits the nesting. -/
theorem display_driver_nesting_witness :
    ∃ p r, (pipeline cfgW).1 =
      p ++ [Event.xvfbStart, Event.driverStart, Event.stageRun "webdriver",
            Event.driverStop, Event.xvfbStop] ++ r ∧
      Event.xvfbStart ∉ p ++ r ∧ Event.driverStart ∉ p ++ r ∧
      Event.driverStop ∉ p ++ r ∧ Event.xvfbStop ∉ p ++ r :=
  display_driver_nesting cfgW (by decide) (by decide)

/-- Pushing a prefix free of database and database-backed-test events
through a `dbStart` split. -/
theorem db_split_prepend {A B : List Event}
    (hA1 : Event.dbStart ∉ A) (hA2 : ∀ ts, Event.phpunitDB ts ∉ A)
    (hB : ∃ p q, B = p ++ Event.dbStart :: q ∧ Event.dbStart ∉ p ∧
      ∀ ts, Event.phpunitDB ts ∉ p) :
    ∃ p q, A ++ B = p ++ Event.dbStart :: q ∧ Event.dbStart ∉ p ∧
      ∀ ts, Event.phpunitDB ts ∉ p := by
  obtain ⟨p, q, rfl, hp1, hp2⟩ := hB
  refine ⟨A ++ p, q, by simp, ?_, ?_⟩
  · intro hm
    rcases List.mem_append.mp hm with hm | hm
    · exact hA1 hm
    · exact hp1 hm
  · intro ts hm
    rcases List.mem_append.mp hm with hm | hm
    · exact hA2 ts hm
    · exact hp2 ts hm

/-- C4: the database backend started for installation is never stopped
by the pipeline itself — no `dbStop` occurs in the `execute` trace; in
the whole run it is stopped exactly once, as the very last event, at
overall teardown; and it is started before any database-backed PHPUnit
stage runs. -/
theorem db_backend_held (c : Config) (h : Event.dbStart ∈ (pipeline c).1) :
    Event.dbStop ∉ (pipeline c).1 ∧
    (∃ q, (mainRun c).1 = q ++ [Event.dbStop] ∧ Event.dbStop ∉ q) ∧
    (∃ p q, (pipeline c).1 = p ++ Event.dbStart :: q ∧ Event.dbStart ∉ p ∧
      ∀ ts, Event.phpunitDB ts ∉ p) := by
  have hstop : Event.dbStop ∉ (pipeline c).1 := by
    intro hm
    rcases mem_pipeline hm with h'|h'|h'|h'|h'|h'|h'|h'|h'|h'
    · simpa using mem_cloneSeg h'
    · simpa using mem_extskinSeg h'
    · simpa using mem_composerUpdateSeg h'
    · rcases mem_installSeg h' with h'' | h'' <;> simp at h''
    · simpa using mem_npmSeg h'
    · simpa using mem_phpunit1Seg h'
    · simpa using mem_coreSeg h'
    · rcases mem_browserSeg h' with h''|h''|h''|h''|h''|h''|h''|h'' <;>
        simp at h''
    · simpa using mem_phpunit2Seg h'
    · rcases mem_commandsSeg h' with h''|h''|h'' <;> simp at h''
  refine ⟨hstop, ?_, ?_⟩
  · unfold mainRun
    rw [if_pos h]
    exact ⟨(pipeline c).1, rfl, hstop⟩
  · unfold pipeline at h ⊢
    obtain ⟨-, h, hT⟩ := peel h (fun hm => by simpa using mem_cloneSeg hm)
    rw [hT]
    refine db_split_prepend (fun hm => by simpa using mem_cloneSeg hm)
      (fun ts hm => by simpa using mem_cloneSeg hm) ?_
    obtain ⟨-, h, hT⟩ := peel h (fun hm => by simpa using mem_extskinSeg hm)
    rw [hT]
    refine db_split_prepend (fun hm => by simpa using mem_extskinSeg hm)
      (fun ts hm => by simpa using mem_extskinSeg hm) ?_
    obtain ⟨-, h, hT⟩ := peel h
      (fun hm => by simpa using mem_composerUpdateSeg hm)
    rw [hT]
    refine db_split_prepend
      (fun hm => by simpa using mem_composerUpdateSeg hm)
      (fun ts hm => by simpa using mem_composerUpdateSeg hm) ?_
    have hins : ∃ q, (seqE (installSeg c)
        (seqE (npmSeg c) (seqE (phpunit1Seg c) (seqE (coreSeg c)
          (seqE (browserSeg c)
            (seqE (phpunit2Seg c) (commandsSeg c))))))).1 =
        Event.dbStart :: q := by
      cases hi : (installSeg c).2 with
      | some e =>
        rw [seqE_of_some hi, installSeg_eq]
        exact ⟨_, rfl⟩
      | none =>
        rw [seqE_of_none hi, installSeg_eq]
        exact ⟨_, rfl⟩
    obtain ⟨q0, hq0⟩ := hins
    exact ⟨[], q0, by simpa using hq0, by simp, by simp⟩

/-- C4 witness: the database backend is not stopped anywhere in a
default run. -/
theorem db_backend_held_witness :
    Event.dbStop ∉ (pipeline cfgW).1 :=
  (db_backend_held cfgW (by decide)).1

end Quibble
